import Mathlib

/-!
Verification model of the Bulk-Transaction-Concurrency engine: a shallow
embedding of its concurrency tracker (`ConcurrencyMonitor`), anomaly
classifier (`detectRaceCondition`), metrics aggregation (`getMetrics`,
`analyzeResults`), timing generation (`simulateSimultaneousClicks`,
`spikeScenario`, `gradualScenario`) and reservation client (`makePurchase`),
together with theorems about the properties the specification states.

Modelling conventions: JS numbers that only ever hold integers (timestamps,
counters, token amounts) are `ℤ`/`ℕ`; values produced by division are exact
rationals `ℚ`, with JS division-by-zero semantics made explicit through
`JsNum`; JS strings are Lean `String`s; a JS `Set`/`Map` is a list in
insertion order; `Date.now()` and `Math.random()` are passed in explicitly.
-/

namespace BulkTx

/-- JS `Math.round`: round half toward positive infinity, on exact rationals. -/
def jsRound (q : ℚ) : ℤ := ⌊q + 1 / 2⌋

/-- Result of a JS floating-point division: a finite value, an infinity, or NaN. -/
inductive JsNum where
  | fin (q : ℚ)
  | posInf
  | negInf
  | nan
  deriving DecidableEq, Repr

/-- JS division `a / b` on exactly-representable numbers: division by (positive)
zero yields an infinity of the numerator's sign, and `0 / 0` yields NaN. -/
def jsDiv (a b : ℚ) : JsNum :=
  if b = 0 then
    if a = 0 then JsNum.nan else if 0 < a then JsNum.posInf else JsNum.negInf
  else JsNum.fin (a / b)

/-- JS `String.prototype.toLowerCase`, character by character. -/
def jsToLowerCase (s : String) : String := ⟨s.data.map Char.toLower⟩

/-- Does `pat` occur at the start of `hay` (as character lists)? -/
def strStarts : List Char → List Char → Bool
  | [], _ => true
  | _ :: _, [] => false
  | p :: ps, h :: hs => p == h && strStarts ps hs

/-- Does `pat` occur as a contiguous run somewhere in the character list? -/
def strIncludesL (pat : List Char) : List Char → Bool
  | [] => pat.isEmpty
  | h :: hs => strStarts pat (h :: hs) || strIncludesL pat hs

/-- JS `hay.includes(pat)`: substring containment. -/
def jsIncludes (hay pat : String) : Bool := strIncludesL pat.data hay.data

/-- JS `a || b` where `a` is a possibly-absent string: an absent or empty
(falsy) `a` falls back to `b`. -/
def jsOrString (a : Option String) (b : String) : String :=
  match a with
  | none => b
  | some s => if s = "" then b else s

/-! ## Concurrency Tracker (`ConcurrencyMonitor`) -/

/-- One element of the monitor's `activeRequests` set: the object built by
`startRequest` (`{id, user, startTime, status}`; `status` is the constant
string `'active'` and is omitted). -/
structure ActiveRequest where
  id : String
  user : String
  startTime : ℤ
  deriving DecidableEq, Repr

/-- Timeline event type; `stop` models the JS string `'end'` (`end` is a Lean
keyword). -/
inductive EventKind where
  | start
  | stop
  deriving DecidableEq, Repr

/-- One entry of `metrics.requestTimeline`. Start events carry no
`success`/`responseTime` fields, modelled as `none`. -/
structure TimelineEvent where
  timestamp : ℤ
  type : EventKind
  requestId : String
  user : String
  success : Option Bool
  responseTime : Option ℤ
  concurrentCount : ℤ
  deriving DecidableEq, Repr

/-- The `metrics` record of `ConcurrencyMonitor`. The `errors` JS `Map` is an
association list in insertion order. -/
structure MonitorMetrics where
  totalRequests : ℕ
  successfulRequests : ℕ
  failedRequests : ℕ
  concurrentRequests : ℤ
  raceConditions : ℕ
  responseTimes : List ℤ
  errors : List (String × ℕ)
  requestTimeline : List TimelineEvent
  peakConcurrency : ℤ
  deriving DecidableEq, Repr

/-- The monitor state: `metrics` plus the `activeRequests` set (a JS `Set`
iterated in insertion order). The constructor's unused `requestHistory`
array is omitted (it is never read or written after construction). -/
structure ConcurrencyMonitor where
  metrics : MonitorMetrics
  activeRequests : List ActiveRequest
  deriving DecidableEq, Repr

/-- The state built by `new ConcurrencyMonitor()`. -/
def ConcurrencyMonitor.init : ConcurrencyMonitor :=
  { metrics :=
      { totalRequests := 0
        successfulRequests := 0
        failedRequests := 0
        concurrentRequests := 0
        raceConditions := 0
        responseTimes := []
        errors := []
        requestTimeline := []
        peakConcurrency := 0 }
    activeRequests := [] }

/-- The method `startRequest(requestId, userEmail)`, with `Date.now()` passed in as `now`. -/
def startRequest (m : ConcurrencyMonitor) (requestId user : String) (now : ℤ) :
    ConcurrencyMonitor :=
  let request : ActiveRequest := { id := requestId, user := user, startTime := now }
  let active := m.activeRequests ++ [request]
  let conc : ℤ := active.length
  let peak := if conc > m.metrics.peakConcurrency then conc else m.metrics.peakConcurrency
  { metrics :=
      { m.metrics with
        totalRequests := m.metrics.totalRequests + 1
        concurrentRequests := conc
        peakConcurrency := peak
        requestTimeline := m.metrics.requestTimeline ++
          [{ timestamp := now, type := EventKind.start, requestId := requestId,
             user := user, success := none, responseTime := none,
             concurrentCount := conc }] }
    activeRequests := active }

/-- The fixed phrase list of `detectRaceCondition`. -/
def concurrencyErrors : List String :=
  ["insufficient tokens", "project not available", "concurrent modification",
   "race condition", "conflict"]

/-- The check `concurrencyErrors.some(errorType => error && error.toLowerCase().includes(errorType))`. -/
def isConcurrencyError (error : Option String) : Bool :=
  concurrencyErrors.any fun errorType =>
    match error with
    | none => false
    | some e => jsIncludes (jsToLowerCase e) errorType

/-- The concurrent cohort of a completed request: `start` timeline events whose
timestamp is within 100 ms of the request's `startTime`, excluding events with
the request's own id. -/
def concurrentCohort (timeline : List TimelineEvent) (request : ActiveRequest) :
    List TimelineEvent :=
  timeline.filter fun event =>
    event.type == EventKind.start &&
      decide ((event.timestamp - request.startTime).natAbs < 100) &&
      event.requestId != request.id

/-- The method `detectRaceCondition(request, success, error)`: whether `raceConditions`
is incremented, given the timeline at the time of the call. -/
def detectRaceCondition (timeline : List TimelineEvent) (request : ActiveRequest)
    (success : Bool) (error : Option String) : Bool :=
  let concurrent := concurrentCohort timeline request
  if 0 < concurrent.length ∧ success = false then isConcurrencyError error
  else false

/-- The JS `Map.set` counter bump of `endRequest`: an existing key keeps its
position, a new key is appended with count 1. -/
def bumpError : List (String × ℕ) → String → List (String × ℕ)
  | [], k => [(k, 1)]
  | (k', v) :: rest, k =>
    if k' = k then (k', v + 1) :: rest else (k', v) :: bumpError rest k

/-- The method `endRequest(requestId, success, responseTime, error)`, with `Date.now()`
passed in as `now`. An unknown `requestId` leaves the state unchanged. -/
def endRequest (m : ConcurrencyMonitor) (requestId : String) (success : Bool)
    (responseTime : ℤ) (error : Option String) (now : ℤ) : ConcurrencyMonitor :=
  match m.activeRequests.find? (fun r => r.id == requestId) with
  | none => m
  | some request =>
    let active := m.activeRequests.erase request
    let conc : ℤ := active.length
    let errorKey := jsOrString error "Unknown error"
    let timeline := m.metrics.requestTimeline ++
      [{ timestamp := now, type := EventKind.stop, requestId := requestId,
         user := request.user, success := some success,
         responseTime := some responseTime, concurrentCount := conc }]
    { metrics :=
        { m.metrics with
          concurrentRequests := conc
          successfulRequests :=
            m.metrics.successfulRequests + (if success then 1 else 0)
          failedRequests := m.metrics.failedRequests + (if success then 0 else 1)
          errors :=
            if success then m.metrics.errors else bumpError m.metrics.errors errorKey
          responseTimes := m.metrics.responseTimes ++ [responseTime]
          requestTimeline := timeline
          raceConditions := m.metrics.raceConditions +
            (if detectRaceCondition timeline request success error then 1 else 0) }
      activeRequests := active }

/-- One tracker notification, tagging `startRequest`/`endRequest` calls with
their wall-clock time. -/
inductive MonitorEvent where
  | start (requestId user : String) (now : ℤ)
  | stop (requestId : String) (success : Bool) (responseTime : ℤ)
      (error : Option String) (now : ℤ)
  deriving DecidableEq, Repr

/-- Apply one notification to the monitor. -/
def applyEvent (m : ConcurrencyMonitor) : MonitorEvent → ConcurrencyMonitor
  | MonitorEvent.start requestId user now => startRequest m requestId user now
  | MonitorEvent.stop requestId success responseTime error now =>
      endRequest m requestId success responseTime error now

/-- Run a sequence of interleaved notifications from the initial state. -/
def runEvents (es : List MonitorEvent) : ConcurrencyMonitor :=
  es.foldl applyEvent ConcurrencyMonitor.init

/-- The value returned by `getMetrics()`: the `...metrics` spread plus the
derived `avgResponseTime`, `successRate` and `currentConcurrency` fields. -/
structure MetricsReport where
  totalRequests : ℕ
  successfulRequests : ℕ
  failedRequests : ℕ
  concurrentRequests : ℤ
  raceConditions : ℕ
  responseTimes : List ℤ
  errors : List (String × ℕ)
  requestTimeline : List TimelineEvent
  peakConcurrency : ℤ
  avgResponseTime : ℤ
  successRate : ℚ
  currentConcurrency : ℤ
  deriving DecidableEq, Repr

/-- The method `getMetrics()`; `successRate` is a percentage rounded to two decimals:
`Math.round(successRate * 100) / 100` of `(successful / total) * 100`. -/
def getMetrics (m : ConcurrencyMonitor) : MetricsReport :=
  let avgResponseTime : ℚ :=
    if 0 < m.metrics.responseTimes.length then
      ((m.metrics.responseTimes.sum : ℚ)) / (m.metrics.responseTimes.length : ℚ)
    else 0
  let successRate : ℚ :=
    if 0 < m.metrics.totalRequests then
      ((m.metrics.successfulRequests : ℚ) / (m.metrics.totalRequests : ℚ)) * 100
    else 0
  { totalRequests := m.metrics.totalRequests
    successfulRequests := m.metrics.successfulRequests
    failedRequests := m.metrics.failedRequests
    concurrentRequests := m.metrics.concurrentRequests
    raceConditions := m.metrics.raceConditions
    responseTimes := m.metrics.responseTimes
    errors := m.metrics.errors
    requestTimeline := m.metrics.requestTimeline
    peakConcurrency := m.metrics.peakConcurrency
    avgResponseTime := jsRound avgResponseTime
    successRate := (jsRound (successRate * 100) : ℚ) / 100
    currentConcurrency := (m.activeRequests.length : ℤ) }

/-! ## Multi-user simulator (`multi-user-simulator.js`) -/

/-- The per-client dispatch offset of `simulateSimultaneousClicks`:
`const clickDelay = Math.random() * 200`. The `burstWindow` parameter
(`options.burstTime`) is bound and logged by the function but never used in
the delay computation; `rand` is the `Math.random()` draw in `[0, 1)`. -/
def clickDelay (burstWindow : ℚ) (rand : ℚ) : ℚ := rand * 200

/-- One element of the `results` array consumed by `analyzeResults`: the
fields produced per click by `simulateSimultaneousClicks`. -/
structure SimResult where
  success : Bool
  responseTime : ℤ
  timestamp : ℤ
  tokenAmount : ℤ
  error : Option String
  deriving DecidableEq, Repr

/-- The timestamp span `results[results.length - 1].timestamp - results[0].timestamp`
used by `analyzeResults` for throughput (0 for an empty list). -/
def lastToFirstMillis : List SimResult → ℤ
  | [] => 0
  | r0 :: rest => ((r0 :: rest).getLast (List.cons_ne_nil r0 rest)).timestamp - r0.timestamp

/-- The `throughput` field of `analyzeResults`:
`results.length / (results[0] ? (results[results.length - 1].timestamp - results[0].timestamp) / 1000 : 1)`. -/
def analyzeResultsThroughput (results : List SimResult) : JsNum :=
  match results with
  | [] => jsDiv 0 1
  | r0 :: rest =>
    jsDiv ((r0 :: rest).length : ℚ) (((lastToFirstMillis (r0 :: rest) : ℚ)) / 1000)

/-! ## Stress-test scenarios (`stress-test.js`)

`Math.ceil(users.length * 0.2)` and friends are embedded with exact rational
ratios (`2/10`, `3/10`, `step/5`); JS doubles agree with the exact values at
every client count the program can run with. -/

/-- Phase client counts of `spikeScenario`:
`[ceil(N * 0.2), N, ceil(N * 0.3)]`. -/
def spikePhaseCounts (n : ℕ) : List ℕ :=
  [(⌈((2 * n : ℕ) : ℚ) / ((10 : ℕ) : ℚ)⌉).toNat, n,
   (⌈((3 * n : ℕ) : ℚ) / ((10 : ℕ) : ℚ)⌉).toNat]

/-- Total reservation attempts dispatched by `spikeScenario` over a client
list: each phase dispatches `users.slice(0, count)`, one `makePurchase` per
element. -/
def spikeScenarioDispatches (users : List String) : ℕ :=
  ((spikePhaseCounts users.length).map fun c => (users.take c).length).sum

/-- Step client counts of `gradualScenario`:
`ceil((N * step) / 5)` for `step = 1 .. 5` (`steps = 5` in the source). -/
def gradualStepCounts (n : ℕ) : List ℕ :=
  [1, 2, 3, 4, 5].map fun step => (⌈((n * step : ℕ) : ℚ) / ((5 : ℕ) : ℚ)⌉).toNat

/-- Total reservation attempts dispatched by `gradualScenario`: each step
dispatches `users.slice(0, userCount)`, one `makePurchase` per element. -/
def gradualScenarioDispatches (users : List String) : ℕ :=
  ((gradualStepCounts users.length).map fun c => (users.take c).length).sum

/-- Closed form for the spike total: `⌈N/5⌉ + N + ⌈3N/10⌉` as natural-number
ceiling divisions. -/
def spikeDispatchCount (n : ℕ) : ℕ := (2 * n + 9) / 10 + n + (3 * n + 9) / 10

/-- Closed form for the gradual total: `Σ_{step=1}^{5} ⌈N·step/5⌉`. -/
def gradualDispatchCount (n : ℕ) : ℕ :=
  (n * 1 + 4) / 5 + (n * 2 + 4) / 5 + (n * 3 + 4) / 5 + (n * 4 + 4) / 5 + (n * 5 + 4) / 5

/-! ## Reservation client (`makePurchase` in `investments.js`) -/

/-- The JSON body `makePurchase` posts to `/projects/reserve`. -/
structure ReserveBody where
  isExternal : Bool
  projectId : String
  totalAmount : ℤ
  totalTokens : ℤ
  userId : String
  userWallet : String
  deriving DecidableEq, Repr

/-- The error thrown by the axios call: its own `message`, plus the flattened
optional chain `error.response?.data?.message` when the failure carries a
structured HTTP error response. -/
structure AxiosError where
  message : String
  responseDataMessage : Option String
  deriving DecidableEq, Repr

/-- Behaviour of the axios POST for one call: it resolves with response data,
or it throws. -/
inductive AxiosResult where
  | ok (responseData : String)
  | threw (e : AxiosError)
  deriving DecidableEq, Repr

/-- The value `makePurchase` resolves with: `{success: true, data}` or
`{success: false, error}` (the absent field is `none`). -/
structure PurchaseResult where
  success : Bool
  data : Option String
  error : Option String
  deriving DecidableEq, Repr

/-- The function `makePurchase(apiUrl, userEmail, projectName, tokenAmount, debug, userId,
userWallet)`, embedded over the axios call behaviour: builds the request body
and coerces a thrown error into `{success: false, error:
error.response?.data?.message || error.message}`; it never itself throws. -/
def makePurchase (projectName : String) (tokenAmount : ℤ) (userId userWallet : String)
    (transport : AxiosResult) : ReserveBody × PurchaseResult :=
  let data : ReserveBody :=
    { isExternal := false
      projectId := projectName
      totalAmount := tokenAmount * 10000
      totalTokens := tokenAmount
      userId := userId
      userWallet := userWallet }
  match transport with
  | AxiosResult.ok rd => (data, { success := true, data := some rd, error := none })
  | AxiosResult.threw e =>
      (data, { success := false, data := none,
               error := some (jsOrString e.responseDataMessage e.message) })

/-- One simulated client as dispatched by `simulateConcurrentRequests`. -/
structure SimClient where
  email : String
  id : String
  wallet : String
  deriving DecidableEq, Repr

/-- The batch dispatch of `simulateConcurrentRequests`: every client's
`makePurchase` outcome (token amount 1), one outcome per client; the
per-client `try`/`catch` means a throwing transport still yields an outcome
and can never reject the `Promise.all`. -/
def dispatchBatch (projectName : String) (clients : List (SimClient × AxiosResult)) :
    List PurchaseResult :=
  clients.map fun cb => (makePurchase projectName 1 cb.1.id cb.1.wallet cb.2).2

/-! ## Helper lemmas -/

/-- Ceiling of a natural division, as an integer floor division of negatives. -/
lemma ceil_natCast_div (m b : ℕ) :
    ⌈(m : ℚ) / ((b : ℕ) : ℚ)⌉ = -((-(m : ℤ)) / (b : ℤ)) := by
  have h1 : ⌈(m : ℚ) / ((b : ℕ) : ℚ)⌉ = -⌊-((m : ℚ) / ((b : ℕ) : ℚ))⌋ := by
    conv_lhs => rw [← neg_neg ((m : ℚ) / ((b : ℕ) : ℚ))]
    rw [Int.ceil_neg]
  have h2 : -((m : ℚ) / ((b : ℕ) : ℚ)) = ((-(m : ℤ) : ℤ) : ℚ) / ((b : ℕ) : ℚ) := by
    push_cast
    ring
  rw [h1, h2, Rat.floor_intCast_div_natCast]

/-! ## C4: burst dispatch offsets versus the declared burst window -/

/-- C4: the burst pattern's per-client offset is `Math.random() * 200`,
independent of the declared burst window. At burst window 100 ms and random
draw 3/4 the offset is 150 ms, which lies outside `[0, 100)`; the offset is
the same whether the window is 100 or the default 2000. -/
theorem clickDelay_outside_burst_window :
    clickDelay 100 (3 / 4) = 150 ∧ ¬ clickDelay 100 (3 / 4) < 100 ∧
    clickDelay 100 (3 / 4) = clickDelay 2000 (3 / 4) := by
  refine ⟨?_, ?_, rfl⟩ <;> norm_num [clickDelay]

/-! ## C5: spike and gradual dispatch totals -/

/-- The `Math.ceil` of a tenth, as a natural ceiling division. -/
lemma ceil_toNat_ten (m : ℕ) : (⌈(m : ℚ) / ((10 : ℕ) : ℚ)⌉).toNat = (m + 9) / 10 := by
  rw [ceil_natCast_div]
  omega

/-- The `Math.ceil` of a fifth, as a natural ceiling division. -/
lemma ceil_toNat_five (m : ℕ) : (⌈(m : ℚ) / ((5 : ℕ) : ℚ)⌉).toNat = (m + 4) / 5 := by
  rw [ceil_natCast_div]
  omega

/-- The spike total in closed form. -/
lemma spikeScenarioDispatches_eq (users : List String) :
    spikeScenarioDispatches users = spikeDispatchCount users.length := by
  simp only [spikeScenarioDispatches, spikePhaseCounts, List.map_cons, List.map_nil,
    List.sum_cons, List.sum_nil, List.length_take, ceil_toNat_ten, spikeDispatchCount]
  omega

/-- The gradual total in closed form. -/
lemma gradualScenarioDispatches_eq (users : List String) :
    gradualScenarioDispatches users = gradualDispatchCount users.length := by
  simp only [gradualScenarioDispatches, gradualStepCounts, List.map_cons, List.map_nil,
    List.sum_cons, List.sum_nil, List.length_take, ceil_toNat_five, gradualDispatchCount]
  omega

/-- C5 counterexample: for 5 clients, `spikeScenario` dispatches 8 reservation
attempts and `gradualScenario` dispatches 15, not exactly `N = 5` as the
claim states. -/
theorem spike_gradual_five_clients :
    spikeScenarioDispatches ["u1", "u2", "u3", "u4", "u5"] = 8 ∧
    gradualScenarioDispatches ["u1", "u2", "u3", "u4", "u5"] = 15 ∧
    (["u1", "u2", "u3", "u4", "u5"] : List String).length = 5 ∧
    (8 : ℕ) ≠ 5 ∧ (15 : ℕ) ≠ 5 := by
  rw [spikeScenarioDispatches_eq, gradualScenarioDispatches_eq]
  refine ⟨by decide, by decide, rfl, by decide, by decide⟩

/-- C5 (amended): for a list of `N` clients, `spikeScenario` schedules
`⌈N/5⌉ + N + ⌈3N/10⌉` dispatches and `gradualScenario` schedules
`Σ_{step=1}^{5} ⌈N·step/5⌉` dispatches (the leading clients are re-dispatched
in every phase/step); both totals are at least `N`, and equal `N` only when
`N = 0`. -/
theorem spike_gradual_dispatch_counts (users : List String) :
    spikeScenarioDispatches users = spikeDispatchCount users.length ∧
    gradualScenarioDispatches users = gradualDispatchCount users.length ∧
    users.length ≤ spikeScenarioDispatches users ∧
    users.length ≤ gradualScenarioDispatches users := by
  refine ⟨spikeScenarioDispatches_eq users, gradualScenarioDispatches_eq users, ?_, ?_⟩
  · rw [spikeScenarioDispatches_eq]
    unfold spikeDispatchCount
    omega
  · rw [gradualScenarioDispatches_eq]
    unfold gradualDispatchCount
    omega

/-! ## C9: throughput at zero wall-clock span -/

/-- Two outcomes dispatched at the same millisecond. -/
def zeroSpanResults : List SimResult :=
  [{ success := true, responseTime := 5, timestamp := 1000, tokenAmount := 1, error := none },
   { success := true, responseTime := 6, timestamp := 1000, tokenAmount := 1, error := none }]

/-- The `analyzeResults` throughput with the JS division-by-zero cases made
explicit: empty list → 0, nonempty zero-span list → Infinity. -/
lemma analyzeResultsThroughput_eq (results : List SimResult) :
    analyzeResultsThroughput results =
      if results.isEmpty then JsNum.fin 0
      else if lastToFirstMillis results = 0 then JsNum.posInf
      else JsNum.fin ((results.length : ℚ) / ((lastToFirstMillis results : ℚ) / 1000)) := by
  cases results with
  | nil => simp [analyzeResultsThroughput, jsDiv]
  | cons r0 rest =>
    by_cases h : lastToFirstMillis (r0 :: rest) = 0
    · have hb : ((lastToFirstMillis (r0 :: rest) : ℤ) : ℚ) / 1000 = 0 := by
        rw [h]
        norm_num
      have hlen : (0 : ℚ) < (rest.length : ℚ) + 1 := by positivity
      simp [analyzeResultsThroughput, jsDiv, hb, h, hlen, hlen.ne']
    · have hb : ((lastToFirstMillis (r0 :: rest) : ℤ) : ℚ) / 1000 ≠ 0 := by
        rw [div_ne_zero_iff]
        exact ⟨by exact_mod_cast h, by norm_num⟩
      simp [analyzeResultsThroughput, jsDiv, hb, h]

/-- C9 counterexample: with two outcomes whose dispatch timestamps coincide
(wall-clock span 0 ms), `analyzeResults` computes `2 / 0`, which is JS
`Infinity` — not the total count 2 the claim states. -/
theorem throughput_zero_duration_infinite :
    lastToFirstMillis zeroSpanResults = 0 ∧ zeroSpanResults.length = 2 ∧
    analyzeResultsThroughput zeroSpanResults = JsNum.posInf ∧
    JsNum.posInf ≠ JsNum.fin 2 := by
  refine ⟨by decide, by decide, ?_, by decide⟩
  rw [analyzeResultsThroughput_eq]
  decide

/-- C9 (amended): throughput is `total / (span / 1000)` where `span` is the
last-to-first dispatch-timestamp difference; only an *empty* outcome list is
guarded (denominator 1, throughput 0), while a nonempty list with span 0 ms
yields JS `Infinity` rather than the total count, and no error is ever
raised (the computation is total). -/
theorem throughput_formula (results : List SimResult) :
    analyzeResultsThroughput results =
      if results.isEmpty then JsNum.fin 0
      else if lastToFirstMillis results = 0 then JsNum.posInf
      else JsNum.fin ((results.length : ℚ) / ((lastToFirstMillis results : ℚ) / 1000)) :=
  analyzeResultsThroughput_eq results

/-! ## C6: transport failures are coerced and isolated -/

/-- C6: in a batch dispatch, the outcome at position `i` is exactly the
`makePurchase` coercion of that client's own transport behaviour (so one
client's failure cannot affect another's outcome, and the batch always has
one outcome per client); a throwing transport with no structured response is
coerced to `{success: false, error: message}`. -/
theorem transport_failure_coerced_and_isolated (projectName : String)
    (clients : List (SimClient × AxiosResult)) (i : ℕ) (tokenAmount : ℤ)
    (userId userWallet msg : String) :
    (dispatchBatch projectName clients).length = clients.length ∧
    (dispatchBatch projectName clients).get? i =
      (clients.get? i).map
        (fun cb => (makePurchase projectName 1 cb.1.id cb.1.wallet cb.2).2) ∧
    (makePurchase projectName tokenAmount userId userWallet
        (AxiosResult.threw { message := msg, responseDataMessage := none })).2 =
      { success := false, data := none, error := some msg } := by
  refine ⟨by simp [dispatchBatch], ?_, ?_⟩
  · simp [dispatchBatch]
  · simp [makePurchase, jsOrString]

/-! ## C10: request body token arithmetic -/

/-- C10: the body `makePurchase` posts always satisfies
`totalAmount = 10000 * totalTokens` and `totalTokens = tokenAmount`, for every
input and every transport behaviour. -/
theorem reserve_body_amount_ratio (projectName : String) (tokenAmount : ℤ)
    (userId userWallet : String) (transport : AxiosResult) :
    (makePurchase projectName tokenAmount userId userWallet transport).1.totalAmount =
      10000 * (makePurchase projectName tokenAmount userId userWallet transport).1.totalTokens ∧
    (makePurchase projectName tokenAmount userId userWallet transport).1.totalTokens =
      tokenAmount := by
  cases transport <;> exact ⟨by simp [makePurchase]; ring, by simp [makePurchase]⟩

/-! ## Tracker invariants (C1, C3) -/

/-- Invariant maintained by every tracker notification: the recorded depth is
the size of the active set, it never exceeds the recorded peak, and the
race-condition count never exceeds the failure count. -/
def MonitorInv (m : ConcurrencyMonitor) : Prop :=
  m.metrics.concurrentRequests = (m.activeRequests.length : ℤ) ∧
  m.metrics.concurrentRequests ≤ m.metrics.peakConcurrency ∧
  m.metrics.raceConditions ≤ m.metrics.failedRequests

lemma monitorInv_init : MonitorInv ConcurrencyMonitor.init := by
  refine ⟨by simp [ConcurrencyMonitor.init], le_refl _, le_refl _⟩

lemma detectRaceCondition_success (tl : List TimelineEvent) (req : ActiveRequest)
    (err : Option String) : detectRaceCondition tl req true err = false := by
  simp [detectRaceCondition]

lemma monitorInv_applyEvent (m : ConcurrencyMonitor) (e : MonitorEvent)
    (h : MonitorInv m) : MonitorInv (applyEvent m e) := by
  obtain ⟨h1, h2, h3⟩ := h
  cases e with
  | start rid u now =>
    refine ⟨by simp [applyEvent, startRequest], ?_, by simp [applyEvent, startRequest]; exact h3⟩
    simp [applyEvent, startRequest]
    split_ifs <;> omega
  | stop rid success rt err now =>
    cases hf : m.activeRequests.find? (fun r => r.id == rid) with
    | none =>
      have hid : applyEvent m (MonitorEvent.stop rid success rt err now) = m := by
        simp [applyEvent, endRequest, hf]
      rw [hid]
      exact ⟨h1, h2, h3⟩
    | some req =>
      have hsub : ((m.activeRequests.erase req).length : ℤ) ≤ (m.activeRequests.length : ℤ) := by
        exact_mod_cast (List.erase_sublist req m.activeRequests).length_le
      refine ⟨by simp [applyEvent, endRequest, hf], ?_, ?_⟩
      · simp only [applyEvent, endRequest, hf]
        calc ((m.activeRequests.erase req).length : ℤ)
            ≤ (m.activeRequests.length : ℤ) := hsub
          _ = m.metrics.concurrentRequests := h1.symm
          _ ≤ m.metrics.peakConcurrency := h2
      · simp only [applyEvent, endRequest, hf]
        cases success with
        | true => simp [detectRaceCondition_success]; omega
        | false => split_ifs <;> simp_all <;> omega

lemma applyEvent_peak_mono (m : ConcurrencyMonitor) (e : MonitorEvent) :
    m.metrics.peakConcurrency ≤ (applyEvent m e).metrics.peakConcurrency := by
  cases e with
  | start rid u now =>
    simp only [applyEvent, startRequest]
    split_ifs <;> omega
  | stop rid success rt err now =>
    cases hf : m.activeRequests.find? (fun r => r.id == rid) with
    | none => simp [applyEvent, endRequest, hf]
    | some req => simp [applyEvent, endRequest, hf]

lemma monitorInv_foldl (es : List MonitorEvent) (m : ConcurrencyMonitor)
    (h : MonitorInv m) : MonitorInv (es.foldl applyEvent m) := by
  induction es generalizing m with
  | nil => exact h
  | cons e es ih => exact ih _ (monitorInv_applyEvent m e h)

lemma peak_mono_foldl (es : List MonitorEvent) (m : ConcurrencyMonitor) :
    m.metrics.peakConcurrency ≤ (es.foldl applyEvent m).metrics.peakConcurrency := by
  induction es generalizing m with
  | nil => exact le_refl _
  | cons e es ih => exact le_trans (applyEvent_peak_mono m e) (ih _)

/-- C1: over every sequence of interleaved `startRequest`/`endRequest`
notifications, the current depth equals the size of the active-request set
(hence never goes negative), the recorded peak is at least the current
depth, and extending the sequence never decreases the peak (monotonicity). -/
theorem tracker_depth_peak_invariant (es more : List MonitorEvent) :
    (runEvents es).metrics.concurrentRequests =
      ((runEvents es).activeRequests.length : ℤ) ∧
    0 ≤ (runEvents es).metrics.concurrentRequests ∧
    (runEvents es).metrics.concurrentRequests ≤ (runEvents es).metrics.peakConcurrency ∧
    (runEvents es).metrics.peakConcurrency ≤
      (runEvents (es ++ more)).metrics.peakConcurrency := by
  unfold runEvents
  obtain ⟨h1, h2, -⟩ := monitorInv_foldl es ConcurrencyMonitor.init monitorInv_init
  refine ⟨h1, ?_, h2, ?_⟩
  · rw [h1]
    exact Int.natCast_nonneg _
  · rw [List.foldl_append]
    exact peak_mono_foldl more _

/-- C3: after every sequence of tracker notifications, the race-condition
count never exceeds the failure count, and the ordinary failures
(`failedRequests − raceConditions`) and the anomalies partition the failures:
they sum back to `failedRequests`, so no outcome is double-counted. -/
theorem failures_partition (es : List MonitorEvent) :
    (runEvents es).metrics.raceConditions ≤ (runEvents es).metrics.failedRequests ∧
    ((runEvents es).metrics.failedRequests - (runEvents es).metrics.raceConditions) +
        (runEvents es).metrics.raceConditions = (runEvents es).metrics.failedRequests := by
  obtain ⟨-, -, h3⟩ := monitorInv_foldl es ConcurrencyMonitor.init monitorInv_init
  exact ⟨h3, Nat.sub_add_cancel h3⟩

/-! ## C7: ending an unknown request id -/

/-- C7: `endRequest` with a request id that is not in the active in-flight
set leaves the entire tracker state (active set, all counters, peak,
response times, error histogram, race-condition count, timeline) unchanged. -/
theorem endRequest_unknown_id_noop (m : ConcurrencyMonitor) (requestId : String)
    (success : Bool) (responseTime : ℤ) (error : Option String) (now : ℤ)
    (h : ∀ r ∈ m.activeRequests, r.id ≠ requestId) :
    endRequest m requestId success responseTime error now = m := by
  have hf : m.activeRequests.find? (fun r => r.id == requestId) = none := by
    rw [List.find?_eq_none]
    intro r hr
    simpa using h r hr
  simp [endRequest, hf]

/-- A state with one in-flight request, for the C7 witness. -/
def oneActive : ConcurrencyMonitor := startRequest ConcurrencyMonitor.init "req-a" "alice" 0

/-- Witness for C7 at a concrete state: ending the unknown id `req-b` is a
no-op. -/
theorem endRequest_unknown_id_noop_witness :
    endRequest oneActive "req-b" true 5 none 10 = oneActive :=
  endRequest_unknown_id_noop oneActive "req-b" true 5 none 10 (by decide)

/-! ## C2: anomaly classification of a failed outcome -/

/-- Appending an `end` event does not change a request's concurrent cohort
(the cohort only collects `start` events). -/
lemma concurrentCohort_append_stop (tl : List TimelineEvent) (ev : TimelineEvent)
    (req : ActiveRequest) (h : ev.type = EventKind.stop) :
    concurrentCohort (tl ++ [ev]) req = concurrentCohort tl req := by
  unfold concurrentCohort
  rw [List.filter_append]
  simp [h]

/-- The value of `detectRaceCondition` on a failed outcome, unfolded to its two conditions. -/
lemma detectRaceCondition_failed_iff (tl : List TimelineEvent) (req : ActiveRequest)
    (err : Option String) :
    detectRaceCondition tl req false err = true ↔
      0 < (concurrentCohort tl req).length ∧ isConcurrencyError err = true := by
  unfold detectRaceCondition
  by_cases hl : 0 < (concurrentCohort tl req).length
  · simp [hl]
  · simp [hl]

/-- Incrementing by an indicator reaches `+ 1` exactly when the indicator's
condition holds. -/
lemma add_indicator_eq_succ (k : ℕ) (b : Bool) :
    (k + (if b then 1 else 0) = k + 1) ↔ b = true := by
  cases b <;> simp

/-- C2: an active failed request is counted as a race-condition anomaly by
`endRequest` exactly when its concurrent cohort (other start events within
100 ms of its own start) is nonempty and its error descriptor contains one
of the fixed concurrency phrases (case-insensitively); and an error
descriptor of `"invalid email"` is never counted, regardless of timing. -/
theorem race_anomaly_classification (m : ConcurrencyMonitor) (requestId : String)
    (responseTime : ℤ) (error : Option String) (now : ℤ) (req : ActiveRequest)
    (hfind : m.activeRequests.find? (fun r => r.id == requestId) = some req) :
    ((endRequest m requestId false responseTime error now).metrics.raceConditions =
        m.metrics.raceConditions + 1 ↔
      0 < (concurrentCohort m.metrics.requestTimeline req).length ∧
        isConcurrencyError error = true) ∧
    (error = some "invalid email" →
      (endRequest m requestId false responseTime error now).metrics.raceConditions =
        m.metrics.raceConditions) := by
  have hcohort :
      concurrentCohort (m.metrics.requestTimeline ++
        [{ timestamp := now, type := EventKind.stop, requestId := requestId,
           user := req.user, success := some false, responseTime := some responseTime,
           concurrentCount := ((m.activeRequests.erase req).length : ℤ) }]) req =
        concurrentCohort m.metrics.requestTimeline req :=
    concurrentCohort_append_stop _ _ _ rfl
  constructor
  · simp only [endRequest, hfind]
    rw [add_indicator_eq_succ, detectRaceCondition_failed_iff, hcohort]
  · intro he
    subst he
    have hconc : isConcurrencyError (some "invalid email") = false := by decide
    simp only [endRequest, hfind]
    cases hd : detectRaceCondition (m.metrics.requestTimeline ++
        [{ timestamp := now, type := EventKind.stop, requestId := requestId,
           user := req.user, success := some false, responseTime := some responseTime,
           concurrentCount := ((m.activeRequests.erase req).length : ℤ) }]) req false
        (some "invalid email") with
    | false => simp [hd]
    | true =>
      obtain ⟨-, habs⟩ := (detectRaceCondition_failed_iff _ _ _).mp hd
      rw [hconc] at habs
      exact absurd habs (by simp)

/-- A state with two start events 50 ms apart, for the C2 witness. -/
def twoStarts : ConcurrencyMonitor :=
  startRequest (startRequest ConcurrencyMonitor.init "req-a" "alice" 0) "req-b" "bob" 50

/-- The active-request entry of `req-b` in `twoStarts`. -/
def reqB : ActiveRequest := { id := "req-b", user := "bob", startTime := 50 }

/-- Witness for C2 at a concrete state and error text. -/
theorem race_anomaly_classification_witness :
    ((endRequest twoStarts "req-b" false 7 (some "invalid email") 60).metrics.raceConditions =
        twoStarts.metrics.raceConditions + 1 ↔
      0 < (concurrentCohort twoStarts.metrics.requestTimeline reqB).length ∧
        isConcurrencyError (some "invalid email") = true) ∧
    (some "invalid email" = some "invalid email" →
      (endRequest twoStarts "req-b" false 7 (some "invalid email") 60).metrics.raceConditions =
        twoStarts.metrics.raceConditions) :=
  race_anomaly_classification twoStarts "req-b" 7 (some "invalid email") 60 reqB (by decide)

/-! ## C8: success rate aggregation -/

/-- The `successRate` field of `getMetrics`, written out. -/
lemma getMetrics_successRate (m : ConcurrencyMonitor) :
    (getMetrics m).successRate =
      (jsRound ((if 0 < m.metrics.totalRequests then
          ((m.metrics.successfulRequests : ℚ) / (m.metrics.totalRequests : ℚ)) * 100
        else 0) * 100) : ℚ) / 100 := rfl

/-- C8 (amended): `getMetrics` reports the success rate as a percentage
rounded to two decimals — `Math.round(((successful / total) * 100) * 100) / 100`
— not as the bare ratio `successful / total`; when `totalRequests = 0` the
rate is 0 and no division is performed, and an empty run (zero clients)
indeed has `totalRequests = 0` and rate 0. -/
theorem successRate_percentage_formula (m : ConcurrencyMonitor) :
    (getMetrics m).successRate =
      (if m.metrics.totalRequests = 0 then 0 else
        ((jsRound (((m.metrics.successfulRequests : ℚ) /
            (m.metrics.totalRequests : ℚ)) * 10000) : ℚ) / 100)) ∧
    (runEvents []).metrics.totalRequests = 0 ∧
    (getMetrics (runEvents [])).successRate = 0 := by
  refine ⟨?_, rfl, ?_⟩
  · rw [getMetrics_successRate]
    rcases Nat.eq_zero_or_pos m.metrics.totalRequests with h | h
    · rw [if_neg (by omega), if_pos h]
      norm_num [jsRound]
    · rw [if_pos h, if_neg (by omega)]
      have harg :
          ((m.metrics.successfulRequests : ℚ) / (m.metrics.totalRequests : ℚ)) * 100 * 100 =
            ((m.metrics.successfulRequests : ℚ) / (m.metrics.totalRequests : ℚ)) * 10000 := by
        ring
      rw [harg]
  · rw [getMetrics_successRate]
    norm_num [runEvents, ConcurrencyMonitor.init, jsRound]

/-- A run with two requests, one successful and one failed. -/
def mixedRun : ConcurrencyMonitor :=
  runEvents [MonitorEvent.start "a" "u" 0, MonitorEvent.start "b" "v" 10,
    MonitorEvent.stop "a" true 5 none 20, MonitorEvent.stop "b" false 6 (some "boom") 30]

/-- C8 counterexample: with 1 success out of 2 requests, `getMetrics` reports
`successRate = 50` (a percentage), which is not the claimed quotient
`successful / total = 1/2`. -/
theorem successRate_not_ratio :
    (getMetrics mixedRun).successRate = 50 ∧
    ((mixedRun.metrics.successfulRequests : ℚ) / (mixedRun.metrics.totalRequests : ℚ)) =
      1 / 2 ∧
    (getMetrics mixedRun).successRate ≠
      ((mixedRun.metrics.successfulRequests : ℚ) / (mixedRun.metrics.totalRequests : ℚ)) := by
  have hs : mixedRun.metrics.successfulRequests = 1 := by decide
  have ht : mixedRun.metrics.totalRequests = 2 := by decide
  rw [getMetrics_successRate, hs, ht]
  norm_num [jsRound]

end BulkTx
